import Mathlib

/-!
Verification of the sales-analysis query layer.

The development shallowly embeds the data loader and the five repository
operations of the sales-analysis program: a CSV loader that caches a table
and normalizes the branch identifier column to text, and a repository
offering monthly sales by branch, price statistics by product, weekly sales
totals, product preference ranking, and the overall sales distribution.

Modelling conventions:
* machine floats are modelled by rationals; the standard deviation, which is
  a square root, lives in the reals;
* a pandas DataFrame of sales records is a list of typed rows plus an
  optional derived week column (the only column any operation ever adds);
* Python exceptions are an inductive type of (class, message) pairs, and a
  raising method returns an Except value together with the post state;
* the sort used by sort_values orders entries by the sort key but leaves
  the relative order of ties unspecified in the library; the embedding
  resolves ties arbitrarily and no theorem relies on that choice. groupby
  enumerates its group keys in ascending order, as the library does.
-/

/-- A raw cell of the loaded table: the loader either inferred a numeric
column or kept the text. -/
inductive Cell where
  | num (n : Int)
  | str (s : String)
deriving DecidableEq

/-- Python exception values: the class that is raised plus its message. -/
inductive PyError where
  | fileNotFoundError (msg : String)
  | valueError (msg : String)
  | ioError (msg : String)
  | keyError (key : String)
deriving DecidableEq

/-- The Python class name of an exception value. -/
def PyError.className : PyError → String
  | .fileNotFoundError _ => "FileNotFoundError"
  | .valueError _ => "ValueError"
  | .ioError _ => "IOError"
  | .keyError _ => "KeyError"

/-- Python str() of an exception, as used when interpolating it into an
f-string: the message, except that KeyError renders its key quoted. -/
def PyError.toMessage : PyError → String
  | .fileNotFoundError m => m
  | .valueError m => m
  | .ioError m => m
  | .keyError k => "'" ++ k ++ "'"

/-- The class name of the error of a failed call, or the empty string for a
successful one. -/
def errClassOf {α : Type} : Except PyError α → String
  | .error e => e.className
  | .ok _ => ""

/-- The raw table produced by pandas read_csv: a header naming the columns
and one list of cells per data row (each row has exactly one cell per
header entry). -/
structure RawFrame where
  header : List String
  cells : List (List Cell)
deriving DecidableEq

/-- The two pandas read errors the loader distinguishes. -/
inductive PdReadError where
  | emptyDataError
  | parserError
deriving DecidableEq

/-- The numeric value of a decimal digit character. -/
def digitVal (c : Char) : Option Nat :=
  if c.isDigit then some (c.toNat - 48) else none

/-- Reads a run of decimal digits, accumulating their value. -/
def parseNatDigitsAux (cs : List Char) (acc : Nat) : Option Nat :=
  match cs with
  | [] => some acc
  | c :: rest =>
    match digitVal c with
    | some d => parseNatDigitsAux rest (acc * 10 + d)
    | none => none

/-- Whether a field is an integer literal, optionally negated, and its
value: the integer test read_csv applies when inferring a column dtype. -/
def strToIntOpt (s : String) : Option Int :=
  match s.data with
  | [] => none
  | '-' :: [] => none
  | '-' :: rest => (parseNatDigitsAux rest 0).map (fun n => -(n : Int))
  | cs => (parseNatDigitsAux cs 0).map (fun n => (n : Int))

/-- Whether every entry of column j parses as an integer, which is how
read_csv decides to give the column a numeric dtype. -/
def columnIsNumeric (body : List (List String)) (j : Nat) : Bool :=
  body.all (fun row => (strToIntOpt (row.getD j "")).isSome)

/-- Type inference of read_csv: a column whose every entry parses as an
integer becomes numeric, any other column keeps its text. -/
def inferCells (header : List String) (body : List (List String)) : List (List Cell) :=
  body.map (fun row =>
    (List.range header.length).map (fun j =>
      if columnIsNumeric body j then Cell.num ((strToIntOpt (row.getD j "")).getD 0)
      else Cell.str (row.getD j "")))

/-- pandas read_csv on file content given as rows of fields: an empty file
raises EmptyDataError, a body row whose field count differs from the header
raises ParserError, otherwise the typed table is returned. -/
def pdReadCsv (content : List (List String)) : Except PdReadError RawFrame :=
  match content with
  | [] => .error .emptyDataError
  | header :: body =>
    if body.any (fun row => row.length != header.length) then .error .parserError
    else .ok { header := header, cells := inferCells header body }

/-- Python str() of a cell, the elementwise effect of astype(str). -/
def cellToStr : Cell → Cell
  | .num n => .str (toString n)
  | .str s => .str s

/-- The column assignment data[branch_id] = data[branch_id].astype(str):
raises KeyError when the column is absent, otherwise stringifies every cell
of that column in place. -/
def astypeBranchStr (f : RawFrame) : Except PyError RawFrame :=
  match f.header.indexOf? ("branch_id") with
  | none => .error (.keyError ("branch_id"))
  | some j =>
    .ok { f with cells := f.cells.map (fun row => row.set j (cellToStr (row.getD j (Cell.str "")))) }

/-- The file system seen by the loader: each path either holds parsed CSV
content (rows of fields) or is absent. -/
def FileSys : Type := String → Option (List (List String))

/-- The mutable attributes of the DataLoader singleton. -/
structure DataLoaderState where
  file_path : String
  data : Option RawFrame
deriving DecidableEq

/-- DataLoader._load_data: checks existence, reads the CSV into self.data,
then normalizes the branch_id column to strings, translating the pandas
errors exactly as the except clauses of the source do. The assignment
self.data = pd.read_csv(...) happens before the normalization, so when the
normalization itself fails the parsed, unnormalized table is already
cached. -/
def load_data (fs : FileSys) (s : DataLoaderState) : Except PyError Unit × DataLoaderState :=
  match fs s.file_path with
  | none =>
    (.error (.fileNotFoundError ("The file " ++ s.file_path ++ " does not exist.")), s)
  | some content =>
    match pdReadCsv content with
    | .error .emptyDataError => (.error (.valueError ("The file is empty.")), s)
    | .error .parserError => (.error (.valueError ("Error parsing the file.")), s)
    | .ok frame =>
      match astypeBranchStr frame with
      | .error e =>
        (.error (.ioError ("An unexpected error occurred while reading the file " ++
          s.file_path ++ ": " ++ e.toMessage)), { s with data := some frame })
      | .ok frame2 => (.ok (), { s with data := some frame2 })

/-- DataLoader.get_data: returns the cached table, reloading first when no
table is cached; a load failure propagates. -/
def get_data (fs : FileSys) (s : DataLoaderState) : Except PyError RawFrame × DataLoaderState :=
  match s.data with
  | some d => (.ok d, s)
  | none =>
    match load_data fs s with
    | (.ok _, s2) =>
      match s2.data with
      | some d => (.ok d, s2)
      | none => (.ok { header := [], cells := [] }, s2)
    | (.error e, s2) => (.error e, s2)

/-- DataLoader.__init__: stores the path, sets data to None and runs
_load_data immediately, so the load happens at construction time, before
any repository or report object exists; a load failure propagates out of
the constructor and no loader instance becomes available. -/
def DataLoader.init (fs : FileSys) (file_path : String) : Except PyError DataLoaderState :=
  match load_data fs { file_path := file_path, data := none } with
  | (.ok _, s2) => .ok s2
  | (.error e, _) => .error e

/-- A calendar date as pandas to_datetime yields it from an ISO string. -/
structure Date where
  year : Nat
  month : Nat
  day : Nat
deriving DecidableEq

/-- Gregorian leap year test. -/
def isLeap (y : Nat) : Bool :=
  (y % 4 == 0 && y % 100 != 0) || y % 400 == 0

/-- Length of a month of the Gregorian calendar. -/
def daysInMonth (y m : Nat) : Nat :=
  if m == 2 then (if isLeap y then 29 else 28)
  else if m == 4 || m == 6 || m == 9 || m == 11 then 30
  else 31

/-- Ordinal day within the year, 1 for January 1. -/
def dayOfYear (d : Date) : Nat :=
  (List.range (d.month - 1)).foldl (fun acc i => acc + daysInMonth d.year (i + 1)) 0 + d.day

/-- Rata Die day number: day 1 is 0001-01-01, a Monday, of the proleptic
Gregorian calendar. -/
def rataDie (d : Date) : Nat :=
  365 * (d.year - 1) + (d.year - 1) / 4 - (d.year - 1) / 100 + (d.year - 1) / 400 + dayOfYear d

/-- ISO weekday, Monday = 1 through Sunday = 7. -/
def isoWeekday (d : Date) : Nat :=
  (rataDie d - 1) % 7 + 1

/-- Number of ISO weeks of a year: 53 exactly when the year starts or ends
on a Thursday, else 52. -/
def isoWeeksInYear (y : Nat) : Nat :=
  let p := fun (n : Nat) => (n + n / 4 - n / 100 + n / 400) % 7
  if p y == 4 || p (y - 1) == 3 then 53 else 52

/-- ISO 8601 week number of a date, as Series.dt.isocalendar().week
computes it: days at the start of January may fall in the last week of the
previous year and days at the end of December in week 1 of the next. -/
def isoWeek (d : Date) : Nat :=
  let w := (dayOfYear d + 10 - isoWeekday d) / 7
  if w == 0 then isoWeeksInYear (d.year - 1)
  else if w > isoWeeksInYear d.year then 1
  else w

/-- One typed row of the loaded sales table, after the loader normalized
the branch identifier column. -/
structure SalesRow where
  branch_id : Cell
  date : Date
  product_id : Int
  sales_amount : Rat
  price : Rat
deriving DecidableEq

/-- The cached sales DataFrame: the loaded rows plus the optional derived
week column, which is the one column a report ever assigns. -/
structure DataFrame where
  rows : List SalesRow
  weekCol : Option (List Nat)
deriving DecidableEq

/-- A DataFrame is well formed when its derived week column, if present,
has one entry per row, as every frame the program builds does. -/
def DataFrame.wf (df : DataFrame) : Prop :=
  ∀ wk ∈ df.weekCol, wk.length = df.rows.length

instance (df : DataFrame) : Decidable df.wf := by
  unfold DataFrame.wf; infer_instance

/-- groupby(key)[val].sum(): group keys in ascending order, as pandas
enumerates groups, each paired with the sum of val over its rows. -/
def groupSum {α κ : Type} [LinearOrder κ] [BEq κ] (key : α → κ) (val : α → Rat)
    (rows : List α) : List (κ × Rat) :=
  (((rows.map key).dedup.insertionSort (· ≤ ·)).map
    (fun k => (k, ((rows.filter (fun r => key r == k)).map val).sum)))

/-- The eight summary statistics a pandas describe() of a numeric series
reports, in its order: count, mean, std, min, 25%, 50%, 75%, max. -/
structure DescribeStats where
  count : Nat
  mean : Rat
  std : Real
  min : Rat
  q25 : Rat
  q50 : Rat
  q75 : Rat
  max : Rat

/-- The linear-interpolation quantile pandas uses: index q * (n - 1) into
the sorted values, interpolating between the neighbouring entries. -/
def quantile (sorted : List Rat) (q : Rat) : Rat :=
  let h : Rat := q * ((sorted.length : Rat) - 1)
  let i : Nat := h.floor.toNat
  let lo := sorted.getD i 0
  let hi := sorted.getD (i + 1) lo
  lo + (h - (i : Rat)) * (hi - lo)

/-- Series.describe(): the eight statistics of a numeric series, with the
sample standard deviation (denominator n - 1) pandas Series.std computes. -/
noncomputable def describe (xs : List Rat) : DescribeStats :=
  let n := xs.length
  let mean := xs.sum / (n : Rat)
  let var := ((xs.map (fun x => (x - mean) ^ 2)).sum) / ((n : Rat) - 1)
  let sorted := xs.insertionSort (· ≤ ·)
  { count := n
    mean := mean
    std := Real.sqrt (var : Real)
    min := sorted.getD 0 0
    q25 := quantile sorted (1 / 4)
    q50 := quantile sorted (1 / 2)
    q75 := quantile sorted (3 / 4)
    max := sorted.getD (n - 1) 0 }

/-- The boolean row mask data[data[branch_id] == branch_id] applied to the
whole frame: rows are kept, and the week column when present is filtered by
the same mask. -/
def DataFrame.filterBranch (df : DataFrame) (branch_id : String) : DataFrame :=
  match df.weekCol with
  | none => { rows := df.rows.filter (fun r => r.branch_id == Cell.str branch_id), weekCol := none }
  | some wk =>
    let kept := (df.rows.zip wk).filter (fun p => p.1.branch_id == Cell.str branch_id)
    { rows := kept.map Prod.fst, weekCol := some (kept.map Prod.snd) }

/-- SalesRepository.get_monthly_sales: filter the frame to the rows whose
branch_id equals the parameter, raise ValueError when none match, and wrap
the failure message as the outer except clause of the source does. -/
def get_monthly_sales (df : DataFrame) (branch_id : String) :
    Except PyError DataFrame × DataFrame :=
  let branch_data := df.filterBranch branch_id
  if branch_data.rows.isEmpty then
    (.error (.valueError ("Error fetching monthly sales data: No data found for branch ID: " ++
      branch_id)), df)
  else (.ok branch_data, df)

/-- SalesRepository.get_product_price_analysis:
data.groupby(product_id)[price].describe(). -/
noncomputable def get_product_price_analysis (df : DataFrame) :
    Except PyError (List (Int × DescribeStats)) × DataFrame :=
  (.ok (((df.rows.map (fun r => r.product_id)).dedup.insertionSort (· ≤ ·)).map
    (fun k => (k, describe ((df.rows.filter (fun r => r.product_id == k)).map (fun r => r.price))))),
   df)

/-- SalesRepository.get_weekly_sales: assign the derived ISO week column on
the shared frame, then group by it and sum sales_amount. The column
assignment mutates the cached frame, which the returned post state
records. -/
def get_weekly_sales (df : DataFrame) : Except PyError (List (Nat × Rat)) × DataFrame :=
  let wk := df.rows.map (fun r => isoWeek r.date)
  let df2 : DataFrame := { df with weekCol := some wk }
  (.ok (groupSum (fun r => isoWeek r.date) (fun r => r.sales_amount) df2.rows), df2)

/-- SalesRepository.get_product_preference:
data.groupby(product_id)[sales_amount].sum().sort_values(ascending=False).
The library sort orders the groups by descending summed amount but, with
its default quicksort kind, leaves the relative order of tied groups
unspecified; the embedding has to be a function, so it resolves the tie
order arbitrarily with an insertion sort, and no theorem of this
development relies on the tie order this choice happens to produce: only
the multiset of entries and the descending order of values reflect the
program. -/
def get_product_preference (df : DataFrame) : Except PyError (List (Int × Rat)) × DataFrame :=
  (.ok ((groupSum (fun r => r.product_id) (fun r => r.sales_amount) df.rows).insertionSort
    (fun a b => b.2 ≤ a.2)), df)

/-- SalesRepository.get_sales_distribution: data[sales_amount].describe(). -/
noncomputable def get_sales_distribution (df : DataFrame) :
    Except PyError DescribeStats × DataFrame :=
  (.ok (describe (df.rows.map (fun r => r.sales_amount))), df)

/-- The strategy objects the factory builds, one per concrete
AnalysisStrategy subclass; the monthly one stores the branch_id argument. -/
inductive AnalysisStrategy where
  | monthlySalesAnalysis (branch_id : String)
  | priceAnalysis
  | weeklySalesAnalysis
  | productPreferenceAnalysis
  | salesDistributionAnalysis
deriving DecidableEq

/-- AnalysisFactory.create_analysis: dispatch on the analysis type string;
the monthly branch reads kwargs[branch_id], raising KeyError when the
keyword argument is absent, and an unrecognized type raises ValueError. -/
def create_analysis (analysis_type : String) (kwargs_branch_id : Option String) :
    Except PyError AnalysisStrategy :=
  if analysis_type == "monthly_sales" then
    match kwargs_branch_id with
    | some b => .ok (.monthlySalesAnalysis b)
    | none => .error (.keyError ("branch_id"))
  else if analysis_type == "price" then .ok .priceAnalysis
  else if analysis_type == "weekly_sales" then .ok .weeklySalesAnalysis
  else if analysis_type == "product_preference" then .ok .productPreferenceAnalysis
  else if analysis_type == "sales_distribution" then .ok .salesDistributionAnalysis
  else .error (.valueError ("Unknown analysis type"))

namespace App

/-- SalesRepository.get_monthly_sales as the web application file defines
it, line for line the same method as in the terminal application file. -/
def get_monthly_sales (df : DataFrame) (branch_id : String) :
    Except PyError DataFrame × DataFrame :=
  let branch_data := df.filterBranch branch_id
  if branch_data.rows.isEmpty then
    (.error (.valueError ("Error fetching monthly sales data: No data found for branch ID: " ++
      branch_id)), df)
  else (.ok branch_data, df)

/-- SalesRepository.get_product_price_analysis of the web application
file. -/
noncomputable def get_product_price_analysis (df : DataFrame) :
    Except PyError (List (Int × DescribeStats)) × DataFrame :=
  (.ok (((df.rows.map (fun r => r.product_id)).dedup.insertionSort (· ≤ ·)).map
    (fun k => (k, describe ((df.rows.filter (fun r => r.product_id == k)).map (fun r => r.price))))),
   df)

/-- SalesRepository.get_weekly_sales of the web application file. -/
def get_weekly_sales (df : DataFrame) : Except PyError (List (Nat × Rat)) × DataFrame :=
  let wk := df.rows.map (fun r => isoWeek r.date)
  let df2 : DataFrame := { df with weekCol := some wk }
  (.ok (groupSum (fun r => isoWeek r.date) (fun r => r.sales_amount) df2.rows), df2)

/-- SalesRepository.get_product_preference of the web application file;
the tie order of sort_values is unspecified by the library and resolved
arbitrarily here, exactly as in the terminal application embedding. -/
def get_product_preference (df : DataFrame) : Except PyError (List (Int × Rat)) × DataFrame :=
  (.ok ((groupSum (fun r => r.product_id) (fun r => r.sales_amount) df.rows).insertionSort
    (fun a b => b.2 ≤ a.2)), df)

/-- SalesRepository.get_sales_distribution of the web application file. -/
noncomputable def get_sales_distribution (df : DataFrame) :
    Except PyError DescribeStats × DataFrame :=
  (.ok (describe (df.rows.map (fun r => r.sales_amount))), df)

end App

/-- The sales_amount column of the frame. -/
def salesAmounts (df : DataFrame) : List Rat :=
  df.rows.map (fun r => r.sales_amount)

/-- The price series of one product group. -/
def groupPrices (df : DataFrame) (p : Int) : List Rat :=
  (df.rows.filter (fun r => r.product_id == p)).map (fun r => r.price)

/-- The file system of the C8 witness: one file encoding branch ids as a
numeric column. -/
def fsNum : FileSys :=
  fun p => if p == "f" then some [["branch_id", "d"], ["1", "a"], ["07", "z"]] else none


/-- Splitting a pointwise sum of two maps over one list. -/
theorem sum_map_add_split {κ : Type} (ks : List κ) (f g : κ → Rat) :
    (ks.map (fun k => f k + g k)).sum = (ks.map f).sum + (ks.map g).sum := by
  induction ks with
  | nil => simp
  | cons k ks ih => simp [ih]; ring

/-- Summing the indicator of one key over a duplicate-free key list picks
out exactly that key once. -/
theorem sum_map_indicator {κ : Type} [BEq κ] [LawfulBEq κ] (ks : List κ) (k0 : κ) (c : Rat)
    (hnd : ks.Nodup) (hmem : k0 ∈ ks) :
    (ks.map (fun k => if k0 == k then c else 0)).sum = c := by
  induction ks with
  | nil => cases hmem
  | cons k ks ih =>
    rcases List.mem_cons.mp hmem with h | h
    · subst h
      have hz : (ks.map (fun k => if k0 == k then c else 0)).sum = 0 := by
        apply List.sum_eq_zero
        intro x hx
        obtain ⟨k, hk, rfl⟩ := List.mem_map.mp hx
        have hne : k0 ≠ k := fun he => (List.nodup_cons.mp hnd).1 (he ▸ hk)
        simp [hne]
      simp [hz]
    · have hne : (k0 == k) = false := by
        apply beq_eq_false_iff_ne.mpr
        intro he
        exact (List.nodup_cons.mp hnd).1 (he ▸ h)
      simp [hne, ih (List.nodup_cons.mp hnd).2 h]

/-- Grouping rows by any key list that covers them without duplicates and
summing each group reproduces the total sum: no row is dropped or counted
twice. -/
theorem sum_filter_by_keys {α κ : Type} [BEq κ] [LawfulBEq κ] (key : α → κ) (val : α → Rat) :
    ∀ (rows : List α) (ks : List κ), ks.Nodup → (∀ r ∈ rows, key r ∈ ks) →
      (ks.map (fun k => ((rows.filter (fun r => key r == k)).map val).sum)).sum
        = (rows.map val).sum := by
  intro rows
  induction rows with
  | nil => intro ks _ _; simp
  | cons r rs ih =>
    intro ks hnd hcov
    have hstep : ∀ k : κ, (((r :: rs).filter (fun x => key x == k)).map val).sum
        = (if key r == k then val r else 0)
          + ((rs.filter (fun x => key x == k)).map val).sum := by
      intro k
      by_cases h : key r = k
      · simp [List.filter_cons, h]
      · have hb : (key r == k) = false := beq_eq_false_iff_ne.mpr h
        simp [List.filter_cons, hb]
    calc (ks.map (fun k => (((r :: rs).filter (fun x => key x == k)).map val).sum)).sum
        = (ks.map (fun k => (if key r == k then val r else 0)
            + ((rs.filter (fun x => key x == k)).map val).sum)).sum := by
          simp only [hstep]
      _ = (ks.map (fun k => if key r == k then val r else 0)).sum
            + (ks.map (fun k => ((rs.filter (fun x => key x == k)).map val).sum)).sum :=
          sum_map_add_split ks _ _
      _ = val r + (rs.map val).sum := by
          rw [sum_map_indicator ks (key r) (val r) hnd (hcov r (List.mem_cons_self r rs)),
            ih ks hnd (fun x hx => hcov x (List.mem_cons_of_mem r hx))]
      _ = ((r :: rs).map val).sum := by simp

/-- The group sums of groupSum add up to the sum of val over all rows. -/
theorem sum_groupSum {α κ : Type} [LinearOrder κ] [BEq κ] [LawfulBEq κ]
    (key : α → κ) (val : α → Rat) (rows : List α) :
    ((groupSum key val rows).map Prod.snd).sum = (rows.map val).sum := by
  unfold groupSum
  rw [List.map_map]
  apply sum_filter_by_keys key val rows
  · exact (List.perm_insertionSort _ _).nodup_iff.mpr (List.nodup_dedup _)
  · intro r hr
    exact (List.mem_insertionSort _).mpr (List.mem_dedup.mpr (List.mem_map_of_mem key hr))

/-- C2: for every dataset, the per-group totals of get_weekly_sales (the
sales_amount summed per ISO week) and of get_product_preference (the
sales_amount summed per product_id) each add up to the sum of sales_amount
over the whole dataset: the groupings neither drop nor double-count a
row. -/
theorem weekly_and_preference_totals_partition (df : DataFrame) :
    ∃ s : List (Nat × Rat), (get_weekly_sales df).1 = .ok s ∧
      (s.map Prod.snd).sum = (df.rows.map (fun r => r.sales_amount)).sum ∧
      ∃ p : List (Int × Rat), (get_product_preference df).1 = .ok p ∧
        (p.map Prod.snd).sum = (df.rows.map (fun r => r.sales_amount)).sum := by
  refine ⟨_, rfl, sum_groupSum _ _ _, _, rfl, ?_⟩
  have hp := List.perm_insertionSort (fun a b : Int × Rat => b.2 ≤ a.2)
    (groupSum (fun r => r.product_id) (fun r => r.sales_amount) df.rows)
  rw [(hp.map Prod.snd).sum_eq]
  exact sum_groupSum _ _ _

/-- Filtering parallel row and week columns by a predicate on the row and
keeping the rows equals filtering the rows directly. -/
theorem zip_filter_map_fst {α β : Type} (p : α → Bool) :
    ∀ (l : List α) (w : List β), w.length = l.length →
      ((l.zip w).filter (fun q => p q.1)).map Prod.fst = l.filter p := by
  intro l
  induction l with
  | nil => intro w _; simp
  | cons x t ih =>
    intro w h
    cases w with
    | nil => exact absurd h (by simp)
    | cons y w2 =>
      simp only [List.zip_cons_cons, List.filter_cons]
      by_cases hp : p x
      · simp [hp, ih w2 (by simpa using h)]
      · simp [hp, ih w2 (by simpa using h)]

/-- The boolean-mask filter keeps exactly the rows whose branch_id equals
the parameter, in order, whenever the frame is well formed. -/
theorem filterBranch_rows (df : DataFrame) (b : String) (hwf : df.wf) :
    (df.filterBranch b).rows = df.rows.filter (fun r => r.branch_id == Cell.str b) := by
  rcases hw : df.weekCol with _ | wk
  · simp [DataFrame.filterBranch, hw]
  · simp only [DataFrame.filterBranch, hw]
    exact zip_filter_map_fst (fun r => r.branch_id == Cell.str b) df.rows wk
      (hwf wk (by rw [hw]; rfl))

/-- C1: for a branch identifier that occurs in the loaded dataset,
get_monthly_sales returns exactly the rows whose branch_id equals the
parameter by exact string match, as many rows as match, in the insertion
order of the source table. -/
theorem monthly_sales_filters_exactly (df : DataFrame) (b : String) (hwf : df.wf)
    (hex : ∃ r ∈ df.rows, r.branch_id = Cell.str b) :
    ∃ res : DataFrame, (get_monthly_sales df b).1 = .ok res ∧
      res.rows = df.rows.filter (fun r => r.branch_id == Cell.str b) ∧
      (∀ r ∈ res.rows, r.branch_id = Cell.str b) ∧
      res.rows.length = df.rows.countP (fun r => r.branch_id == Cell.str b) ∧
      List.Sublist res.rows df.rows := by
  have hrows := filterBranch_rows df b hwf
  obtain ⟨r0, hr0, hb0⟩ := hex
  have hmem : r0 ∈ df.rows.filter (fun r => r.branch_id == Cell.str b) :=
    List.mem_filter.mpr ⟨hr0, by simp [hb0]⟩
  have hne : (df.filterBranch b).rows.isEmpty = false := by
    rw [hrows, List.isEmpty_eq_false]
    exact List.ne_nil_of_mem hmem
  refine ⟨df.filterBranch b, ?_, hrows, ?_, ?_, ?_⟩
  · simp [get_monthly_sales, hne]
  · intro r hr
    rw [hrows] at hr
    have hmf := List.of_mem_filter hr
    exact eq_of_beq hmf
  · rw [hrows]
    simp [List.countP_eq_length_filter]
  · rw [hrows]
    exact List.filter_sublist df.rows

/-- Witness for C1 on the dataset of the specification example. -/
theorem monthly_sales_filters_exactly_witness :
    ∃ res : DataFrame,
      (get_monthly_sales ⟨[⟨Cell.str "1", ⟨2023, 1, 1⟩, 101, 100, 10⟩], none⟩ "1").1 = .ok res ∧
      res.rows = [⟨Cell.str "1", ⟨2023, 1, 1⟩, 101, 100, 10⟩].filter
        (fun r => r.branch_id == Cell.str "1") ∧
      (∀ r ∈ res.rows, r.branch_id = Cell.str "1") ∧
      res.rows.length = [(⟨Cell.str "1", ⟨2023, 1, 1⟩, 101, 100, 10⟩ : SalesRow)].countP
        (fun r => r.branch_id == Cell.str "1") ∧
      List.Sublist res.rows [⟨Cell.str "1", ⟨2023, 1, 1⟩, 101, 100, 10⟩] :=
  monthly_sales_filters_exactly ⟨[⟨Cell.str "1", ⟨2023, 1, 1⟩, 101, 100, 10⟩], none⟩ "1"
    (fun _ h => nomatch h)
    ⟨⟨Cell.str "1", ⟨2023, 1, 1⟩, 101, 100, 10⟩, List.mem_singleton.mpr rfl, rfl⟩

/-- What describe on a nonempty series guarantees: the count is the number
of values, the std squares to the sample variance with denominator n - 1
and is nonnegative, and min and max are the least and greatest value. -/
theorem describe_spec (xs : List Rat) (hne : xs ≠ []) :
    (describe xs).count = xs.length ∧
    (describe xs).std ^ 2 = (((xs.map (fun x => (x - xs.sum / (xs.length : Rat)) ^ 2)).sum
      / ((xs.length : Rat) - 1) : Rat) : Real) ∧
    0 ≤ (describe xs).std ∧
    (describe xs).min ∈ xs ∧ (∀ x ∈ xs, (describe xs).min ≤ x) ∧
    (describe xs).max ∈ xs ∧ (∀ x ∈ xs, x ≤ (describe xs).max) := by
  have hvar_nonneg : (0 : Rat) ≤ (xs.map (fun x => (x - xs.sum / (xs.length : Rat)) ^ 2)).sum
      / ((xs.length : Rat) - 1) := by
    apply div_nonneg
    · apply List.sum_nonneg
      intro x hx
      obtain ⟨y, _, rfl⟩ := List.mem_map.mp hx
      exact sq_nonneg _
    · have h1 : 1 ≤ xs.length := List.length_pos.mpr hne
      have h2 : (1 : Rat) ≤ (xs.length : Rat) := by exact_mod_cast h1
      linarith
  have hsorted : (xs.insertionSort (· ≤ ·)).Sorted (· ≤ ·) := List.sorted_insertionSort _ _
  have hperm : List.Perm (xs.insertionSort (· ≤ ·)) xs := List.perm_insertionSort _ _
  have hs_ne : xs.insertionSort (· ≤ ·) ≠ [] := by
    intro h
    apply hne
    have hl := hperm.length_eq
    rw [h] at hl
    exact List.length_eq_zero.mp hl.symm
  obtain ⟨y, t, hyt⟩ := List.exists_cons_of_ne_nil hs_ne
  refine ⟨rfl, ?_, Real.sqrt_nonneg _, ?_, ?_, ?_, ?_⟩
  · exact Real.sq_sqrt (by exact_mod_cast hvar_nonneg)
  · have hmin_eq : (describe xs).min = y := by
      show (xs.insertionSort (· ≤ ·)).getD 0 0 = y
      rw [hyt]; rfl
    rw [hmin_eq]
    exact hperm.subset (hyt ▸ List.mem_cons_self y t)
  · intro x hx
    have hmin_eq : (describe xs).min = y := by
      show (xs.insertionSort (· ≤ ·)).getD 0 0 = y
      rw [hyt]; rfl
    rw [hmin_eq]
    have hx2 : x ∈ xs.insertionSort (· ≤ ·) := hperm.mem_iff.mpr hx
    rw [hyt] at hx2
    rcases List.mem_cons.mp hx2 with h | h
    · exact le_of_eq h.symm
    · exact List.rel_of_sorted_cons (hyt ▸ hsorted) x h
  · have hn1 : xs.length - 1 < (xs.insertionSort (· ≤ ·)).length := by
      rw [hperm.length_eq]
      have := List.length_pos.mpr hne
      omega
    have hmax_eq : (describe xs).max = (xs.insertionSort (· ≤ ·)).get ⟨xs.length - 1, hn1⟩ := by
      show (xs.insertionSort (· ≤ ·)).getD (xs.length - 1) 0 = _
      rw [List.getD_eq_getElem?_getD, List.getElem?_eq_getElem hn1]
      rfl
    rw [hmax_eq]
    exact hperm.subset (List.get_mem _ _ hn1)
  · intro x hx
    have hn1 : xs.length - 1 < (xs.insertionSort (· ≤ ·)).length := by
      rw [hperm.length_eq]
      have := List.length_pos.mpr hne
      omega
    have hmax_eq : (describe xs).max = (xs.insertionSort (· ≤ ·)).get ⟨xs.length - 1, hn1⟩ := by
      show (xs.insertionSort (· ≤ ·)).getD (xs.length - 1) 0 = _
      rw [List.getD_eq_getElem?_getD, List.getElem?_eq_getElem hn1]
      rfl
    rw [hmax_eq]
    have hx2 : x ∈ xs.insertionSort (· ≤ ·) := hperm.mem_iff.mpr hx
    obtain ⟨i, hgi⟩ := List.mem_iff_get.mp hx2
    have hi : i.val ≤ xs.length - 1 := by
      have hlt := i.isLt
      have hlen := hperm.length_eq
      omega
    rcases eq_or_lt_of_le hi with he | hl
    · have hieq : i = ⟨xs.length - 1, hn1⟩ := Fin.ext he
      rw [← hgi, hieq]
    · rw [← hgi]
      exact hsorted.rel_get_of_lt hl

/-- C3: on a non-empty dataset, get_sales_distribution and every group of
get_product_price_analysis yield the eight describe statistics, where the
count equals the number of contributing rows and the std is the sample
standard deviation, the square root of the squared deviations from the
mean divided by n - 1. -/
theorem describe_eight_statistics (df : DataFrame) (hne : df.rows ≠ []) :
    (∃ stats : DescribeStats, (get_sales_distribution df).1 = .ok stats ∧
      stats.count = df.rows.length ∧
      stats.std ^ 2 = ((((salesAmounts df).map (fun x => (x - (salesAmounts df).sum
        / (((salesAmounts df).length : Rat))) ^ 2)).sum
        / (((salesAmounts df).length : Rat) - 1) : Rat) : Real) ∧
      0 ≤ stats.std ∧ stats.min ∈ salesAmounts df ∧ stats.max ∈ salesAmounts df ∧
      (∀ x ∈ salesAmounts df, stats.min ≤ x ∧ x ≤ stats.max)) ∧
    ∃ groups : List (Int × DescribeStats), (get_product_price_analysis df).1 = .ok groups ∧
      ∀ p stats, (p, stats) ∈ groups →
        stats.count = (df.rows.filter (fun r => r.product_id == p)).length ∧
        stats.std ^ 2 = ((((groupPrices df p).map (fun x => (x - (groupPrices df p).sum
          / (((groupPrices df p).length : Rat))) ^ 2)).sum
          / (((groupPrices df p).length : Rat) - 1) : Rat) : Real) ∧
        0 ≤ stats.std := by
  constructor
  · have hne2 : salesAmounts df ≠ [] := by
      unfold salesAmounts
      intro h
      exact hne (List.map_eq_nil_iff.mp h)
    obtain ⟨hc, hstd, hnn, hmin_mem, hmin_le, hmax_mem, hmax_ge⟩ := describe_spec _ hne2
    refine ⟨describe (salesAmounts df), rfl, ?_, hstd, hnn, hmin_mem, hmax_mem, ?_⟩
    · rw [hc]
      exact List.length_map _ _
    · exact fun x hx => ⟨hmin_le x hx, hmax_ge x hx⟩
  · refine ⟨_, rfl, ?_⟩
    intro p stats hmem
    obtain ⟨k, hk, heq⟩ := List.mem_map.mp hmem
    have hp : k = p := congrArg Prod.fst heq
    subst hp
    have hs : stats = describe (groupPrices df k) := (congrArg Prod.snd heq).symm
    have hk2 : k ∈ df.rows.map (fun r => r.product_id) :=
      List.mem_dedup.mp ((List.mem_insertionSort _).mp hk)
    obtain ⟨r0, hr0, hr0k⟩ := List.mem_map.mp hk2
    have hrf : r0 ∈ df.rows.filter (fun r => r.product_id == k) :=
      List.mem_filter.mpr ⟨hr0, by simp [hr0k]⟩
    have hne3 : groupPrices df k ≠ [] := by
      unfold groupPrices
      intro h
      rw [List.map_eq_nil_iff] at h
      rw [h] at hrf
      cases hrf
    obtain ⟨hc, hstd, hnn, _, _, _, _⟩ := describe_spec _ hne3
    rw [hs]
    refine ⟨?_, hstd, hnn⟩
    rw [hc]
    exact List.length_map _ _

/-- Witness for C3 on a one-row dataset. -/
theorem describe_eight_statistics_witness :
    (∃ stats : DescribeStats,
      (get_sales_distribution ⟨[⟨Cell.str "1", ⟨2023, 1, 1⟩, 101, 100, 10⟩], none⟩).1 =
        .ok stats ∧
      stats.count = (⟨[⟨Cell.str "1", ⟨2023, 1, 1⟩, 101, 100, 10⟩], none⟩ : DataFrame).rows.length ∧
      stats.std ^ 2 = ((((salesAmounts ⟨[⟨Cell.str "1", ⟨2023, 1, 1⟩, 101, 100, 10⟩], none⟩).map
        (fun x => (x - (salesAmounts ⟨[⟨Cell.str "1", ⟨2023, 1, 1⟩, 101, 100, 10⟩], none⟩).sum
        / (((salesAmounts ⟨[⟨Cell.str "1", ⟨2023, 1, 1⟩, 101, 100, 10⟩], none⟩).length : Rat))) ^ 2)).sum
        / (((salesAmounts ⟨[⟨Cell.str "1", ⟨2023, 1, 1⟩, 101, 100, 10⟩], none⟩).length : Rat) - 1)
        : Rat) : Real) ∧
      0 ≤ stats.std ∧
      stats.min ∈ salesAmounts ⟨[⟨Cell.str "1", ⟨2023, 1, 1⟩, 101, 100, 10⟩], none⟩ ∧
      stats.max ∈ salesAmounts ⟨[⟨Cell.str "1", ⟨2023, 1, 1⟩, 101, 100, 10⟩], none⟩ ∧
      (∀ x ∈ salesAmounts ⟨[⟨Cell.str "1", ⟨2023, 1, 1⟩, 101, 100, 10⟩], none⟩,
        stats.min ≤ x ∧ x ≤ stats.max)) ∧
    ∃ groups : List (Int × DescribeStats),
      (get_product_price_analysis ⟨[⟨Cell.str "1", ⟨2023, 1, 1⟩, 101, 100, 10⟩], none⟩).1 =
        .ok groups ∧
      ∀ p stats, (p, stats) ∈ groups →
        stats.count = ((⟨[⟨Cell.str "1", ⟨2023, 1, 1⟩, 101, 100, 10⟩], none⟩ : DataFrame).rows.filter
          (fun r => r.product_id == p)).length ∧
        stats.std ^ 2 = ((((groupPrices ⟨[⟨Cell.str "1", ⟨2023, 1, 1⟩, 101, 100, 10⟩], none⟩ p).map
          (fun x => (x - (groupPrices ⟨[⟨Cell.str "1", ⟨2023, 1, 1⟩, 101, 100, 10⟩], none⟩ p).sum
          / (((groupPrices ⟨[⟨Cell.str "1", ⟨2023, 1, 1⟩, 101, 100, 10⟩], none⟩ p).length : Rat))) ^ 2)).sum
          / (((groupPrices ⟨[⟨Cell.str "1", ⟨2023, 1, 1⟩, 101, 100, 10⟩], none⟩ p).length : Rat) - 1)
          : Rat) : Real) ∧
        0 ≤ stats.std :=
  describe_eight_statistics ⟨[⟨Cell.str "1", ⟨2023, 1, 1⟩, 101, 100, 10⟩], none⟩
    (List.cons_ne_nil _ _)

/-- Post state of each repository operation: four reports return the frame
unchanged, while get_weekly_sales stores the derived week column in it. -/
theorem reports_post_state (df : DataFrame) (b : String) :
    (get_monthly_sales df b).2 = df ∧
    (get_product_price_analysis df).2 = df ∧
    (get_product_preference df).2 = df ∧
    (get_sales_distribution df).2 = df ∧
    (get_weekly_sales df).2 =
      { df with weekCol := some (df.rows.map (fun r => isoWeek r.date)) } := by
  refine ⟨?_, rfl, rfl, rfl, rfl⟩
  unfold get_monthly_sales
  by_cases h : (df.filterBranch b).rows.isEmpty
  · simp [h]
  · simp [h]

/-- C7 amended: the four reports other than the weekly one leave the cached
dataset unchanged, but get_weekly_sales persists the derived week column in
the shared cached frame, so the dataset seen by later calls differs. -/
theorem reports_mutation_profile (df : DataFrame) (b : String) :
    (get_monthly_sales df b).2 = df ∧
    (get_product_price_analysis df).2 = df ∧
    (get_product_preference df).2 = df ∧
    (get_sales_distribution df).2 = df ∧
    (get_weekly_sales df).2 =
      { df with weekCol := some (df.rows.map (fun r => isoWeek r.date)) } :=
  reports_post_state df b

/-- Counterexample to C7 as stated: running get_weekly_sales on a one-row
frame leaves a cached frame different from the one before the call. -/
theorem weekly_sales_mutates_cache :
    (get_weekly_sales ⟨[⟨Cell.str "1", ⟨2023, 1, 1⟩, 101, 100, 10⟩], none⟩).2 ≠
      ⟨[⟨Cell.str "1", ⟨2023, 1, 1⟩, 101, 100, 10⟩], none⟩ := by
  intro h
  have h2 := congrArg DataFrame.weekCol h
  simp [get_weekly_sales] at h2

/-- C9: the five repository operations of the web application file and of
the terminal application file agree on every frame and branch argument,
returning the same result and post state, hence failing alike. -/
theorem app_repository_extensionally_equal (df : DataFrame) (b : String) :
    App.get_monthly_sales df b = get_monthly_sales df b ∧
    App.get_product_price_analysis df = get_product_price_analysis df ∧
    App.get_weekly_sales df = get_weekly_sales df ∧
    App.get_product_preference df = get_product_preference df ∧
    App.get_sales_distribution df = get_sales_distribution df :=
  ⟨rfl, rfl, rfl, rfl, rfl⟩

/-- C10: create_analysis for monthly_sales without the branch_id keyword
raises KeyError, not the unknown-report ValueError and not a
FileNotFoundError; the other four names succeed without a branch_id; any
name outside the five raises the unknown-report ValueError. -/
theorem create_analysis_dispatch (t : String) (kw : Option String)
    (hun : t ∉ ["monthly_sales", "price", "weekly_sales", "product_preference",
      "sales_distribution"]) :
    create_analysis "monthly_sales" none = .error (.keyError ("branch_id")) ∧
    (∀ b, create_analysis "monthly_sales" (some b) = .ok (.monthlySalesAnalysis b)) ∧
    create_analysis "price" kw = .ok .priceAnalysis ∧
    create_analysis "weekly_sales" kw = .ok .weeklySalesAnalysis ∧
    create_analysis "product_preference" kw = .ok .productPreferenceAnalysis ∧
    create_analysis "sales_distribution" kw = .ok .salesDistributionAnalysis ∧
    create_analysis t kw = .error (.valueError ("Unknown analysis type")) := by
  simp only [List.mem_cons, List.not_mem_nil, or_false, not_or] at hun
  obtain ⟨h1, h2, h3, h4, h5⟩ := hun
  refine ⟨rfl, fun b => rfl, rfl, rfl, rfl, rfl, ?_⟩
  simp [create_analysis, h1, h2, h3, h4, h5]

/-- Witness for C10 at the unknown report name foo. -/
theorem create_analysis_dispatch_witness :
    ("foo" : String) ∉ ["monthly_sales", "price", "weekly_sales", "product_preference",
      "sales_distribution"] ∧
    (create_analysis "monthly_sales" none = .error (.keyError ("branch_id")) ∧
    (∀ b, create_analysis "monthly_sales" (some b) = .ok (.monthlySalesAnalysis b)) ∧
    create_analysis "price" none = .ok .priceAnalysis ∧
    create_analysis "weekly_sales" none = .ok .weeklySalesAnalysis ∧
    create_analysis "product_preference" none = .ok .productPreferenceAnalysis ∧
    create_analysis "sales_distribution" none = .ok .salesDistributionAnalysis ∧
    create_analysis "foo" none = .error (.valueError ("Unknown analysis type"))) :=
  ⟨by decide, create_analysis_dispatch "foo" none (by decide)⟩

/-- C6 amended: for a branch identifier with no matching row,
get_monthly_sales raises a ValueError whose message names the absent
branch; this is the same exception class the repository uses for every
other fault, so the class alone does not single out the absent key. -/
theorem monthly_sales_absent_branch_error (df : DataFrame) (b : String) (hwf : df.wf)
    (habs : ∀ r ∈ df.rows, r.branch_id ≠ Cell.str b) :
    (get_monthly_sales df b).1 = .error (.valueError
      ("Error fetching monthly sales data: No data found for branch ID: " ++ b)) := by
  have hrows := filterBranch_rows df b hwf
  have hempty : (df.filterBranch b).rows.isEmpty = true := by
    rw [hrows, List.isEmpty_eq_true, List.filter_eq_nil_iff]
    intro r hr
    simp [habs r hr]
  simp [get_monthly_sales, hempty]

/-- Witness for the amended C6 on a one-row frame and an absent branch. -/
theorem monthly_sales_absent_branch_error_witness :
    (⟨[⟨Cell.str "1", ⟨2023, 1, 1⟩, 101, 100, 10⟩], none⟩ : DataFrame).wf ∧
    (∀ r ∈ (⟨[⟨Cell.str "1", ⟨2023, 1, 1⟩, 101, 100, 10⟩], none⟩ : DataFrame).rows,
      r.branch_id ≠ Cell.str "2") ∧
    (get_monthly_sales ⟨[⟨Cell.str "1", ⟨2023, 1, 1⟩, 101, 100, 10⟩], none⟩ "2").1 =
      .error (.valueError ("Error fetching monthly sales data: No data found for branch ID: 2")) :=
  by
  refine ⟨?_, ?_, ?_⟩
  · intro wk h
    exact nomatch h
  · decide
  · exact monthly_sales_absent_branch_error ⟨[⟨Cell.str "1", ⟨2023, 1, 1⟩, 101, 100, 10⟩], none⟩
      "2" (fun _ h => nomatch h) (by decide)

/-- Counterexample to C6 as stated: the error for an absent branch carries
the ValueError class, the very class of an ordinary parse fault such as an
empty input file, and not the FileNotFoundError class the error taxonomy
reserves for missing things, so no error class distinguishes the absent
key. -/
theorem absent_branch_error_class_counterexample :
    errClassOf ((get_monthly_sales ⟨[⟨Cell.str "1", ⟨2023, 1, 1⟩, 101, 100, 10⟩], none⟩ "2").1)
      = "ValueError" ∧
    errClassOf ((load_data (fun _ => some []) ⟨"sales_data.csv", none⟩).1) = "ValueError" ∧
    errClassOf ((get_monthly_sales ⟨[⟨Cell.str "1", ⟨2023, 1, 1⟩, 101, 100, 10⟩], none⟩ "2").1)
      ≠ "FileNotFoundError" := by
  refine ⟨rfl, rfl, ?_⟩
  intro h
  exact absurd h (by decide)

/-- C5 amended: loading fails with FileNotFoundError exactly when the path
is absent, and that failure precedes any report: the constructor itself
fails and a report opening data access through get_data receives the same
error before any report logic runs; an empty file and a malformed table
fail with the two ValueError parse messages and cache nothing; a fault
after parsing, such as a missing branch_id column, fails with IOError but
leaves the parsed, unnormalized table cached; a clean load caches the
normalized table. -/
theorem load_data_error_contract (fs : FileSys) (s : DataLoaderState) (hnone : s.data = none) :
    ((∃ m, (load_data fs s).1 = .error (.fileNotFoundError m)) ↔ fs s.file_path = none) ∧
    (fs s.file_path = none →
      DataLoader.init fs s.file_path = .error (.fileNotFoundError
        ("The file " ++ s.file_path ++ " does not exist.")) ∧
      get_data fs s = (.error (.fileNotFoundError
        ("The file " ++ s.file_path ++ " does not exist.")), s)) ∧
    (fs s.file_path = none → ((load_data fs s).2).data = none) ∧
    (∀ content, fs s.file_path = some content →
      (pdReadCsv content = .error .emptyDataError →
        (load_data fs s).1 = .error (.valueError ("The file is empty.")) ∧
        ((load_data fs s).2).data = none) ∧
      (pdReadCsv content = .error .parserError →
        (load_data fs s).1 = .error (.valueError ("Error parsing the file.")) ∧
        ((load_data fs s).2).data = none) ∧
      (∀ frame, pdReadCsv content = .ok frame →
        (∀ e, astypeBranchStr frame = .error e →
          (load_data fs s).1 = .error (.ioError
            ("An unexpected error occurred while reading the file " ++ s.file_path ++ ": "
              ++ e.toMessage)) ∧
          ((load_data fs s).2).data = some frame) ∧
        (∀ frame2, astypeBranchStr frame = .ok frame2 →
          (load_data fs s).1 = .ok () ∧ ((load_data fs s).2).data = some frame2))) := by
  refine ⟨⟨?_, ?_⟩, ?_, ?_, ?_⟩
  · rintro ⟨m, hm⟩
    by_contra hne
    obtain ⟨content, hc⟩ := Option.ne_none_iff_exists'.mp hne
    rcases hp : pdReadCsv content with e | frame
    · rcases e with _ | _
      · simp [load_data, hc, hp] at hm
      · simp [load_data, hc, hp] at hm
    · rcases ha : astypeBranchStr frame with e2 | frame2
      · simp [load_data, hc, hp, ha] at hm
      · simp [load_data, hc, hp, ha] at hm
  · intro hf
    exact ⟨"The file " ++ s.file_path ++ " does not exist.", by simp [load_data, hf]⟩
  · intro hf
    constructor
    · simp [DataLoader.init, load_data, hf]
    · simp [get_data, hnone, load_data, hf]
  · intro hf
    simp [load_data, hf, hnone]
  · intro content hc
    refine ⟨?_, ?_, ?_⟩
    · intro hp
      exact ⟨by simp [load_data, hc, hp], by simp [load_data, hc, hp, hnone]⟩
    · intro hp
      exact ⟨by simp [load_data, hc, hp], by simp [load_data, hc, hp, hnone]⟩
    · intro frame hp
      refine ⟨?_, ?_⟩
      · intro e ha
        exact ⟨by simp [load_data, hc, hp, ha], by simp [load_data, hc, hp, ha]⟩
      · intro frame2 ha
        exact ⟨by simp [load_data, hc, hp, ha], by simp [load_data, hc, hp, ha]⟩

/-- Witness for the amended C5, instantiated at an empty file system. -/
theorem load_data_error_contract_witness :
    (⟨"sales_data.csv", none⟩ : DataLoaderState).data = none ∧
    (((∃ m, (load_data (fun _ => none) ⟨"sales_data.csv", none⟩).1 =
        .error (.fileNotFoundError m)) ↔
      (fun _ => none : FileSys) "sales_data.csv" = none) ∧
    ((fun _ => none : FileSys) "sales_data.csv" = none →
      DataLoader.init (fun _ => none) "sales_data.csv" = .error (.fileNotFoundError
        ("The file " ++ "sales_data.csv" ++ " does not exist.")) ∧
      get_data (fun _ => none) ⟨"sales_data.csv", none⟩ = (.error (.fileNotFoundError
        ("The file " ++ "sales_data.csv" ++ " does not exist.")), ⟨"sales_data.csv", none⟩)) ∧
    ((fun _ => none : FileSys) "sales_data.csv" = none →
      ((load_data (fun _ => none) ⟨"sales_data.csv", none⟩).2).data = none) ∧
    (∀ content, (fun _ => none : FileSys) "sales_data.csv" = some content →
      (pdReadCsv content = .error .emptyDataError →
        (load_data (fun _ => none) ⟨"sales_data.csv", none⟩).1 =
          .error (.valueError ("The file is empty.")) ∧
        ((load_data (fun _ => none) ⟨"sales_data.csv", none⟩).2).data = none) ∧
      (pdReadCsv content = .error .parserError →
        (load_data (fun _ => none) ⟨"sales_data.csv", none⟩).1 =
          .error (.valueError ("Error parsing the file.")) ∧
        ((load_data (fun _ => none) ⟨"sales_data.csv", none⟩).2).data = none) ∧
      (∀ frame, pdReadCsv content = .ok frame →
        (∀ e, astypeBranchStr frame = .error e →
          (load_data (fun _ => none) ⟨"sales_data.csv", none⟩).1 = .error (.ioError
            ("An unexpected error occurred while reading the file " ++ "sales_data.csv" ++ ": "
              ++ e.toMessage)) ∧
          ((load_data (fun _ => none) ⟨"sales_data.csv", none⟩).2).data = some frame) ∧
        (∀ frame2, astypeBranchStr frame = .ok frame2 →
          (load_data (fun _ => none) ⟨"sales_data.csv", none⟩).1 = .ok () ∧
          ((load_data (fun _ => none) ⟨"sales_data.csv", none⟩).2).data = some frame2)))) :=
  ⟨rfl, load_data_error_contract (fun _ => none) ⟨"sales_data.csv", none⟩ rfl⟩

/-- Counterexample to C5 as stated: a parsable file whose header lacks the
branch_id column makes the load fail with the IOError-class error while
the parsed table stays cached, so the failure does cache a dataset. -/
theorem load_failure_caches_dataset :
    (load_data (fun p => if p == "sales_data.csv" then some [["x", "y"], ["1", "2"]] else none)
        ⟨"sales_data.csv", none⟩).1 =
      .error (.ioError
        ("An unexpected error occurred while reading the file sales_data.csv: 'branch_id'")) ∧
    ((load_data (fun p => if p == "sales_data.csv" then some [["x", "y"], ["1", "2"]] else none)
        ⟨"sales_data.csv", none⟩).2).data ≠ none := by
  refine ⟨rfl, ?_⟩
  intro h
  exact Option.noConfusion h

/-- A found column index is within the header. -/
theorem indexOf?_lt_length {l : List String} {a : String} {j : Nat}
    (h : l.indexOf? a = some j) : j < l.length := by
  unfold List.indexOf? at h
  exact (List.findIdx?_eq_some_iff_findIdx_eq.mp h).1

/-- Every row of a successfully parsed table has one cell per header
entry. -/
theorem pdReadCsv_row_length {content : List (List String)} {frame : RawFrame}
    (h : pdReadCsv content = .ok frame) :
    ∀ row ∈ frame.cells, row.length = frame.header.length := by
  rcases content with _ | ⟨header, body⟩
  · simp [pdReadCsv] at h
  · simp only [pdReadCsv] at h
    by_cases hr : body.any (fun row => row.length != header.length)
    · rw [if_pos hr] at h
      exact absurd h (by simp)
    · rw [if_neg hr] at h
      simp only [Except.ok.injEq] at h
      subst h
      intro row hrow
      obtain ⟨row0, _, rfl⟩ := List.mem_map.mp hrow
      simp

/-- Writing a cell at an in-range index makes it the value read back at
that index. -/
theorem getD_set_of_lt {α : Type} (l : List α) (j : Nat) (c d : α) (h : j < l.length) :
    (l.set j c).getD j d = c := by
  induction l generalizing j with
  | nil => simp at h
  | cons x t ih =>
    cases j with
    | zero => rfl
    | succ n => exact ih n (by simpa using h)

/-- astype(str) always produces a text cell. -/
theorem cellToStr_is_str (c : Cell) : ∃ t, cellToStr c = Cell.str t := by
  cases c
  · exact ⟨_, rfl⟩
  · exact ⟨_, rfl⟩

/-- C8: after every successful load the cached table has a branch_id
column whose every cell is text, however the file encoded it, and every
report operation leaves the rows, and so the branch_id column, of the
cached frame unchanged. -/
theorem branch_id_text_invariant :
    (∀ (fs : FileSys) (s s2 : DataLoaderState) (u : Unit),
      load_data fs s = (.ok u, s2) →
      ∀ frame, s2.data = some frame →
        ∃ j, frame.header.indexOf? ("branch_id") = some j ∧
          ∀ row ∈ frame.cells, ∃ t, row.getD j (Cell.str "") = Cell.str t) ∧
    (∀ (df : DataFrame) (b : String),
      ((get_monthly_sales df b).2).rows = df.rows ∧
      ((get_product_price_analysis df).2).rows = df.rows ∧
      ((get_weekly_sales df).2).rows = df.rows ∧
      ((get_product_preference df).2).rows = df.rows ∧
      ((get_sales_distribution df).2).rows = df.rows) := by
  constructor
  · intro fs s s2 u hload frame hdata
    rcases hc : fs s.file_path with _ | content
    · simp [load_data, hc] at hload
    · rcases hp : pdReadCsv content with e | frame0
      · rcases e with _ | _ <;> simp [load_data, hc, hp] at hload
      · rcases ha : astypeBranchStr frame0 with e2 | frame2
        · simp [load_data, hc, hp, ha] at hload
        · simp only [load_data, hc, hp, ha, Prod.mk.injEq] at hload
          have hs2 : s2 = { s with data := some frame2 } := hload.2.symm
          rw [hs2] at hdata
          simp only [Option.some.injEq] at hdata
          unfold astypeBranchStr at ha
          rcases hidx : frame0.header.indexOf? ("branch_id") with _ | j
          · rw [hidx] at ha
            exact absurd ha (by simp)
          · rw [hidx] at ha
            simp only [Except.ok.injEq] at ha
            refine ⟨j, ?_, ?_⟩
            · rw [← hdata, ← ha]
              exact hidx
            · intro row hrow
              rw [← hdata, ← ha] at hrow
              obtain ⟨row0, hrow0, rfl⟩ := List.mem_map.mp hrow
              have hlen : row0.length = frame0.header.length := pdReadCsv_row_length hp row0 hrow0
              have hjlt : j < row0.length := by
                rw [hlen]
                exact indexOf?_lt_length hidx
              rw [getD_set_of_lt _ _ _ _ hjlt]
              exact cellToStr_is_str _
  · intro df b
    obtain ⟨h1, h2, h3, h4, h5⟩ := reports_post_state df b
    exact ⟨by rw [h1], by rw [h2], by rw [h5], by rw [h3], by rw [h4]⟩

/-- Witness for C8: loading the numeric branch file yields text branch
cells, and the weekly report keeps the rows of a one-row frame. -/
theorem branch_id_text_invariant_witness :
    load_data fsNum ⟨"f", none⟩ =
      (.ok (), ⟨"f", some ⟨["branch_id", "d"],
        [[Cell.str "1", Cell.str "a"], [Cell.str "7", Cell.str "z"]]⟩⟩) ∧
    (∃ j, (⟨["branch_id", "d"],
        [[Cell.str "1", Cell.str "a"], [Cell.str "7", Cell.str "z"]]⟩ : RawFrame).header.indexOf?
          ("branch_id") = some j ∧
      ∀ row ∈ (⟨["branch_id", "d"],
          [[Cell.str "1", Cell.str "a"], [Cell.str "7", Cell.str "z"]]⟩ : RawFrame).cells,
        ∃ t, row.getD j (Cell.str "") = Cell.str t) ∧
    ((get_weekly_sales ⟨[⟨Cell.str "1", ⟨2023, 1, 1⟩, 101, 100, 10⟩], none⟩).2).rows =
      (⟨[⟨Cell.str "1", ⟨2023, 1, 1⟩, 101, 100, 10⟩], none⟩ : DataFrame).rows := by
  refine ⟨rfl, ?_, ?_⟩
  · exact branch_id_text_invariant.1 fsNum ⟨"f", none⟩
      ⟨"f", some ⟨["branch_id", "d"], [[Cell.str "1", Cell.str "a"], [Cell.str "7", Cell.str "z"]]⟩⟩
      () rfl
      ⟨["branch_id", "d"], [[Cell.str "1", Cell.str "a"], [Cell.str "7", Cell.str "z"]]⟩ rfl
  · exact (branch_id_text_invariant.2 ⟨[⟨Cell.str "1", ⟨2023, 1, 1⟩, 101, 100, 10⟩], none⟩ "").2.2.1
